import Mathlib

/-!
Shallow embedding of the bevy-discord-rpc plugin (src/lib.rs).

The plugin registers two Bevy systems:
  * `startup_client` (Startup): seeds `ActivityState.timestamps` from the wall
    clock when `config.show_time` holds, registers one queue-pushing callback
    per lifecycle `Event` variant, and fire-and-forgets `client.start()`.
  * `check_activity_changed` (Update): when Bevy's change detection reports the
    `ActivityState` resource as changed since the system's last run, issues one
    `client.set_activity` call carrying a clone of the current state, logging
    (not propagating) any error.

External collaborators (the discord-presence client, the system clock, Bevy's
per-system change-detection ticks) are modelled by explicit parameters and an
explicit `changed` flag; `src/state.rs` is not part of the sources, so the
event queue container it defines is modelled from the spec where noted.
-/

namespace BevyDiscordPresence

/-- Modelled from the spec: the closed, enumerable set of connection-lifecycle
event kinds defined by the external client library (`discord_presence::Event`,
e.g. ready, connected, disconnected, error). The library is an external
collaborator; the exact variant names are immaterial, only that the set is
closed and enumerable. -/
inductive Event where
  | ready
  | connected
  | disconnected
  | errored
  deriving DecidableEq, Repr

/-- Embedding of `quork::traits::list::ListVariants`: the list of all variants
of `Event`, iterated by `startup_client` (`for event in Event::VARIANTS`). -/
def Event.VARIANTS : List Event :=
  [.ready, .connected, .disconnected, .errored]

/-- Every event kind occurs in `Event.VARIANTS`. -/
theorem Event.mem_VARIANTS (e : Event) : e ∈ Event.VARIANTS := by
  cases e <;> simp [Event.VARIANTS]

/-- Embedding of `discord_presence::models::ActivityTimestamps` (the fields
set by `startup_client`): optional start and end, in whole seconds since the
Unix epoch. `end` is a Lean keyword, hence `end_`. -/
structure ActivityTimestamps where
  start : Option Nat
  end_ : Option Nat
  deriving DecidableEq, Repr

/-- The payload part of the `ActivityState` resource (src/state.rs is not in
the sources; the fields are those the spec and the example exercise:
`details`, `state`, `instance`, `timestamps`, all optional). `instance` is a
Lean keyword, hence `instance_`. -/
structure ActivityState where
  details : Option String
  state : Option String
  instance_ : Option Bool
  timestamps : Option ActivityTimestamps
  deriving DecidableEq, Repr

/-- Modelled from the spec: `ActivityState::default()`, the value inserted by
`app.init_resource::<ActivityState>()` — every payload field unset. -/
def ActivityState.init : ActivityState :=
  { details := none, state := none, instance_ := none, timestamps := none }

/-- Nanoseconds per second, for `Duration::as_secs`. -/
def NANOS_PER_SEC : Nat := 1000000000

/-- Embedding of `SystemTime::now().duration_since(UNIX_EPOCH)`: the wall
clock is an integer count of nanoseconds since the Unix epoch (negative means
before the epoch, in which case `duration_since` returns `Err`). -/
def duration_since_epoch (clockNanos : Int) : Except String Nat :=
  if clockNanos < 0 then .error "SystemTimeError" else .ok clockNanos.toNat

/-- Embedding of `Duration::as_secs`: whole seconds, truncating. -/
def as_secs (nanos : Nat) : Nat := nanos / NANOS_PER_SEC

/-- Locks a registered callback may take: the shared event queue's mutex, or
any other lock (indexed arbitrarily). -/
inductive LockId where
  | eventQueue
  | otherLock (n : Nat)
  deriving DecidableEq, Repr

/-- The observable effects a registered lifecycle callback can perform. -/
inductive CallbackEffect where
  | acquireLock (l : LockId)
  | pushBack (e : Event)
  | releaseLock (l : LockId)
  | logDebug
  | blockingIoOp
  deriving DecidableEq, Repr

/-- Effect trace of the closure `startup_client` registers for `ev`:
`move |_| { events.lock().0.push_back(event); debug!("Added event: {:?}", event); }`
— acquire the queue's lock, append the event kind, release the lock (the
temporary guard is dropped at the end of the statement), then a debug log to
the observability collaborator. -/
def eventCallbackTrace (ev : Event) : List CallbackEffect :=
  [.acquireLock .eventQueue, .pushBack ev, .releaseLock .eventQueue, .logDebug]

/-- The registered callback's effect on the shared queue: append `ev` at the
tail (`push_back`). -/
def eventCallbackOnQueue (ev : Event) (q : List Event) : List Event := q ++ [ev]

/-- Embedding of `RPCConfig` (src/config.rs is not in the sources; the spec
and the crate docs give exactly these fields). -/
structure RPCConfig where
  app_id : Nat
  show_time : Bool
  deriving DecidableEq, Repr

/-- What `startup_client` leaves behind: the updated `ActivityState`, the
list of (event kind, callback effect trace) registrations made via
`client.on_event`, and how many times `client.start()` was invoked. -/
structure StartupOutcome where
  activity : ActivityState
  registrations : List (Event × List CallbackEffect)
  startCalls : Nat
  deriving DecidableEq, Repr

/-- Embedding of `startup_client`. `clockNanos` is the wall clock at startup;
`startRes` is the (discarded: `_ = client.start()`) result of `client.start()`.
`Except.error` models the panic of `.expect("Time has gone backwards")` when
the clock reports a pre-epoch time. -/
def startup_client (config : RPCConfig) (activity : ActivityState)
    (clockNanos : Int) (startRes : Bool) : Except String StartupOutcome :=
  if config.show_time then
    match duration_since_epoch clockNanos with
    | .error _ => .error "Time has gone backwards"
    | .ok nanos =>
        .ok { activity :=
                { activity with
                    timestamps := some { start := some (as_secs nanos), end_ := none } }
            , registrations := Event.VARIANTS.map (fun ev => (ev, eventCallbackTrace ev))
            , startCalls := 1 }
  else
    .ok { activity := activity
        , registrations := Event.VARIANTS.map (fun ev => (ev, eventCallbackTrace ev))
        , startCalls := 1 }

/-- The `ActivityState` resource together with Bevy's change-detection bit for
the `check_activity_changed` system: `changed` holds exactly when the resource
was inserted or mutated through `ResMut` since that system's last run
(`Res::is_changed`). -/
structure SyncState where
  payload : ActivityState
  changed : Bool
  deriving DecidableEq, Repr

/-- A user-system mutation of the resource through `ResMut<ActivityState>`:
applies `f` to the payload and marks the resource changed (Bevy marks the
resource on any mutable dereference). -/
def mutate (s : SyncState) (f : ActivityState → ActivityState) : SyncState :=
  { payload := f s.payload, changed := true }

/-- A sequence of mutations occurring between two runs of the sync system. -/
def mutateAll (s : SyncState) (fs : List (ActivityState → ActivityState)) : SyncState :=
  fs.foldl mutate s

/-- The result the external client returns from `set_activity`. -/
inductive SetActivityResult where
  | ok
  | err (why : String)
  deriving DecidableEq, Repr

/-- Observable output of one run of `check_activity_changed`: the
`set_activity` calls issued (each carrying the cloned payload), the `error!`
log lines, and whether the run aborted the process. -/
structure TickOutput where
  calls : List ActivityState
  errorLogs : List String
  aborted : Bool
  deriving DecidableEq, Repr

/-- Embedding of `check_activity_changed`: if Bevy reports the resource
changed, issue one `set_activity` call carrying `activity.clone()`, and if it
returned `Err(why)` log `error!("Failed to set presence: {}", why)`; the
system's last-run tick advances, so the change bit is consumed either way. -/
def check_activity_changed (s : SyncState) (res : SetActivityResult) :
    SyncState × TickOutput :=
  if s.changed then
    ({ payload := s.payload, changed := false },
     { calls := [s.payload]
     , errorLogs :=
         match res with
         | .ok => []
         | .err why => ["Failed to set presence: " ++ why]
     , aborted := false })
  else
    (s, { calls := [], errorLogs := [], aborted := false })

/-- The resource state right after `RPCPlugin::build` ran
`app.init_resource::<ActivityState>()`: the fresh insertion counts as a change
for Bevy's detection, so the first run of `check_activity_changed` sees
`is_changed() = true`. -/
def initialSyncState : SyncState :=
  { payload := ActivityState.init, changed := true }

/-- Modelled from the spec: the event queue container (`ActivityState.events`,
defined in src/state.rs, absent from the sources) drains by atomically
removing and returning all queued items, leaving the queue empty. Returns
(drained sequence, remaining queue). -/
def drain (q : List Event) : List Event × List Event := (q, [])

/-- The queue contents after a serialized arrival sequence `evs` of pushes
(the single mutex serializes all background callback pushes into one global
arrival order). -/
def pushAll (q : List Event) (evs : List Event) : List Event :=
  evs.foldl (fun acc e => eventCallbackOnQueue e acc) q

/-- Modelled from the spec: acquiring the event queue's mutex inside a
registered callback fails when the mutex is poisoned, and that failure is
propagated as a crash-worthy error (`src/state.rs`, absent from the sources;
per the spec, silent loss of lifecycle events is worse than stopping). On
success the event is appended at the tail. -/
def lockedPush (poisoned : Bool) (q : List Event) (ev : Event) :
    Except String (List Event) :=
  if poisoned then .error "poisoned event queue mutex"
  else .ok (eventCallbackOnQueue ev q)

/- ### Helper lemmas -/

/-- The payload after a sequence of mutations is the left fold of the
mutation functions over the starting payload. -/
theorem mutateAll_payload (fs : List (ActivityState → ActivityState)) (s : SyncState) :
    (mutateAll s fs).payload = fs.foldl (fun p f => f p) s.payload := by
  induction fs generalizing s with
  | nil => rfl
  | cons f rest ih =>
      simp only [mutateAll, List.foldl_cons] at *
      exact ih (mutate s f)

/-- Mutations preserve the changed bit once set. -/
theorem mutateAll_changed_of (fs : List (ActivityState → ActivityState))
    (s : SyncState) (h : s.changed = true) : (mutateAll s fs).changed = true := by
  induction fs generalizing s with
  | nil => exact h
  | cons f rest ih =>
      simp only [mutateAll, List.foldl_cons] at *
      exact ih (mutate s f) rfl

/-- At least one mutation sets the changed bit. -/
theorem mutateAll_changed (fs : List (ActivityState → ActivityState))
    (s : SyncState) (h : fs ≠ []) : (mutateAll s fs).changed = true := by
  cases fs with
  | nil => exact absurd rfl h
  | cons f rest =>
      simp only [mutateAll, List.foldl_cons]
      exact mutateAll_changed_of rest (mutate s f) rfl

/-- A run on a changed resource issues exactly the one call carrying the
current payload. -/
theorem check_calls_changed (s : SyncState) (r : SetActivityResult)
    (h : s.changed = true) :
    (check_activity_changed s r).2.calls = [s.payload] := by
  simp [check_activity_changed, h]

/-- A run on an unchanged resource issues no call. -/
theorem check_calls_unchanged (s : SyncState) (r : SetActivityResult)
    (h : s.changed = false) :
    (check_activity_changed s r).2.calls = [] := by
  simp [check_activity_changed, h]

/-- A run of `check_activity_changed` always leaves the change bit clear for
the next run. -/
theorem check_changed_false (s : SyncState) (r : SetActivityResult) :
    (check_activity_changed s r).1.changed = false := by
  by_cases h : s.changed = true
  · simp [check_activity_changed, h]
  · simp only [Bool.not_eq_true] at h
    simp [check_activity_changed, h]

/-- Any successful run of `startup_client` registers one callback per event
variant and invokes `client.start()` exactly once. -/
theorem startup_ok_shape (c : RPCConfig) (a : ActivityState) (T : Int) (r : Bool)
    (o : StartupOutcome) (h : startup_client c a T r = .ok o) :
    o.registrations = Event.VARIANTS.map (fun ev => (ev, eventCallbackTrace ev)) ∧
    o.startCalls = 1 := by
  by_cases hs : c.show_time = true
  · simp only [startup_client, hs, if_true] at h
    cases hd : duration_since_epoch T with
    | error e => rw [hd] at h; exact Except.noConfusion h
    | ok n =>
        rw [hd] at h
        injection h with h
        subst h
        exact ⟨rfl, rfl⟩
  · simp only [Bool.not_eq_true] at hs
    simp only [startup_client, hs, Bool.false_eq_true, if_false] at h
    injection h with h
    subst h
    exact ⟨rfl, rfl⟩

/-- The queue after a serialized arrival sequence of pushes is the starting
queue with the arrivals appended in order. -/
theorem pushAll_eq (evs q : List Event) : pushAll q evs = q ++ evs := by
  induction evs generalizing q with
  | nil => simp [pushAll]
  | cons e rest ih =>
      have h := ih (q ++ [e])
      simp only [pushAll, List.foldl_cons, eventCallbackOnQueue] at *
      rw [h]
      simp

/-- The outcome `startup_client` produces from the default resource state when
time display is off. -/
def startupOutcomeInit : StartupOutcome :=
  { activity := ActivityState.init
  , registrations := Event.VARIANTS.map (fun ev => (ev, eventCallbackTrace ev))
  , startCalls := 1 }

/- ### Claims -/

/-- C1: For every sequence of N ≥ 1 mutations to the `ActivityState` payload
between two consecutive runs of `check_activity_changed`, the next run issues
exactly one `set_activity` call, and the payload it carries is the payload as
of that tick — the left fold of all the mutations — not any intermediate
state. -/
theorem dirty_coalescing (s : SyncState) (r0 r1 : SetActivityResult)
    (fs : List (ActivityState → ActivityState)) (hfs : fs ≠ []) :
    (check_activity_changed (mutateAll (check_activity_changed s r0).1 fs) r1).2.calls =
      [fs.foldl (fun p f => f p) (check_activity_changed s r0).1.payload] := by
  have hch := mutateAll_changed fs (check_activity_changed s r0).1 hfs
  rw [check_calls_changed _ r1 hch, mutateAll_payload]

/-- Witness for C1: two mutations between ticks, the prior tick starting from
the freshly inserted resource, produce the single coalesced call. -/
theorem dirty_coalescing_witness :
    ([fun p => { p with details := some "hello" },
      fun p => { p with state := some "world" }] :
        List (ActivityState → ActivityState)) ≠ [] ∧
    (check_activity_changed
        (mutateAll (check_activity_changed initialSyncState .ok).1
          [fun p => { p with details := some "hello" },
           fun p => { p with state := some "world" }]) .ok).2.calls =
      [([fun p => { p with details := some "hello" },
         fun p => { p with state := some "world" }] :
          List (ActivityState → ActivityState)).foldl (fun p f => f p)
        (check_activity_changed initialSyncState .ok).1.payload] :=
  ⟨by simp, dirty_coalescing initialSyncState .ok .ok _ (by simp)⟩

/-- C2: If the payload is not mutated between two consecutive runs of
`check_activity_changed`, the second run issues zero `set_activity` calls. -/
theorem no_change_no_call (s : SyncState) (r0 r1 : SetActivityResult) :
    (check_activity_changed (check_activity_changed s r0).1 r1).2.calls = [] := by
  exact check_calls_unchanged _ r1 (check_changed_false s r0)

/-- C3: When `set_activity` returns an error, `check_activity_changed` logs
the error, issues no second call within the tick, does not abort the process,
and leaves the state — hence the next tick's dirty-check behavior — exactly
as a successful run would. -/
theorem update_failure_isolation (s : SyncState) (why : String)
    (h : s.changed = true) :
    (check_activity_changed s (.err why)).2.errorLogs =
      ["Failed to set presence: " ++ why] ∧
    (check_activity_changed s (.err why)).2.calls.length = 1 ∧
    (check_activity_changed s (.err why)).2.aborted = false ∧
    (check_activity_changed s (.err why)).1 = (check_activity_changed s .ok).1 := by
  simp [check_activity_changed, h]

/-- Witness for C3: a failing update on the freshly inserted resource. -/
theorem update_failure_isolation_witness :
    initialSyncState.changed = true ∧
    ((check_activity_changed initialSyncState (.err "pipe closed")).2.errorLogs =
      ["Failed to set presence: " ++ "pipe closed"] ∧
    (check_activity_changed initialSyncState (.err "pipe closed")).2.calls.length = 1 ∧
    (check_activity_changed initialSyncState (.err "pipe closed")).2.aborted = false ∧
    (check_activity_changed initialSyncState (.err "pipe closed")).1 =
      (check_activity_changed initialSyncState .ok).1) :=
  ⟨rfl, update_failure_isolation initialSyncState "pipe closed" rfl⟩

/-- C4: After `startup_client` at a non-negative wall-clock time T: with
`show_time = true`, `timestamps.start` is T in whole seconds since the epoch
and `timestamps.end` is unset; with `show_time = false`, `timestamps` remains
unset. -/
theorem timestamp_seeding (config : RPCConfig) (T : Int) (r : Bool)
    (hT : 0 ≤ T) :
    startup_client config ActivityState.init T r =
      .ok { activity :=
              { ActivityState.init with
                  timestamps :=
                    if config.show_time then
                      some { start := some (T.toNat / NANOS_PER_SEC), end_ := none }
                    else none }
          , registrations := Event.VARIANTS.map (fun ev => (ev, eventCallbackTrace ev))
          , startCalls := 1 } := by
  by_cases hs : config.show_time = true
  · simp [startup_client, hs, duration_since_epoch, not_lt.mpr hT, as_secs]
  · simp only [Bool.not_eq_true] at hs
    simp [startup_client, hs, ActivityState.init]

/-- Witness for C4: startup at 2023-11-14T22:13:20.5Z (1700000000.5 s after
the epoch) with time display on seeds start = 1700000000 whole seconds. -/
theorem timestamp_seeding_witness :
    (0 : Int) ≤ 1700000000500000000 ∧
    startup_client { app_id := 425407036495495169, show_time := true }
        ActivityState.init 1700000000500000000 true =
      .ok { activity :=
              { ActivityState.init with
                  timestamps :=
                    if ({ app_id := 425407036495495169, show_time := true } :
                          RPCConfig).show_time then
                      some { start := some ((1700000000500000000 : Int).toNat / NANOS_PER_SEC)
                           , end_ := none }
                    else none }
          , registrations := Event.VARIANTS.map (fun ev => (ev, eventCallbackTrace ev))
          , startCalls := 1 } :=
  ⟨by norm_num,
   timestamp_seeding { app_id := 425407036495495169, show_time := true }
     1700000000500000000 true (by norm_num)⟩

/-- C5: Draining the queue returns all queued event kinds in their single
global arrival (push) order — no reordering, loss or duplication — and leaves
the queue empty, so a second drain with no intervening push returns an empty
sequence. -/
theorem drain_order_and_idempotent (evs : List Event) :
    drain (pushAll [] evs) = (evs, []) ∧
    drain (drain (pushAll [] evs)).2 = ([], []) := by
  constructor
  · rw [drain, pushAll_eq]
    simp
  · rfl

/-- C6: A successful `startup_client` registers, for every lifecycle event
kind, a callback whose entire effect on shared state is: acquire the shared
event queue's lock, append that kind at the queue's tail, release the lock —
with no I/O and no other lock acquired (the trailing debug log goes to the
out-of-scope observability collaborator). -/
theorem callback_registration (c : RPCConfig) (a : ActivityState) (T : Int)
    (r : Bool) (o : StartupOutcome) (h : startup_client c a T r = .ok o)
    (ev : Event) :
    (ev, eventCallbackTrace ev) ∈ o.registrations ∧
    (eventCallbackTrace ev).filter (fun e => e != CallbackEffect.logDebug) =
      [.acquireLock .eventQueue, .pushBack ev, .releaseLock .eventQueue] ∧
    CallbackEffect.blockingIoOp ∉ eventCallbackTrace ev ∧
    (∀ l, CallbackEffect.acquireLock l ∈ eventCallbackTrace ev → l = .eventQueue) ∧
    (∀ q, eventCallbackOnQueue ev q = q ++ [ev]) := by
  refine ⟨?_, ?_, ?_, ?_, fun q => rfl⟩
  · rw [(startup_ok_shape c a T r o h).1]
    exact List.mem_map.mpr ⟨ev, Event.mem_VARIANTS ev, rfl⟩
  · cases ev <;> rfl
  · simp [eventCallbackTrace]
  · intro l hl
    simp only [eventCallbackTrace, List.mem_cons, List.not_mem_nil, or_false] at hl
    rcases hl with h1 | h1 | h1 | h1 <;> simp_all

/-- Witness for C6: a concrete successful startup registers the queue-push
callback for the `ready` event. -/
theorem callback_registration_witness :
    startup_client { app_id := 425407036495495169, show_time := false }
        ActivityState.init 0 true = .ok startupOutcomeInit ∧
    (Event.ready, eventCallbackTrace .ready) ∈ startupOutcomeInit.registrations :=
  ⟨rfl,
   (callback_registration { app_id := 425407036495495169, show_time := false }
     ActivityState.init 0 true startupOutcomeInit rfl .ready).1⟩

/-- C7: With `show_time` enabled and a wall clock before the Unix epoch,
`startup_client` aborts (the `.expect("Time has gone backwards")` panic);
there is no non-aborting path for that case — the result is the fatal error
for every activity state and every `start()` result. -/
theorem before_epoch_fatal (c : RPCConfig) (a : ActivityState) (T : Int)
    (r : Bool) (hshow : c.show_time = true) (hT : T < 0) :
    startup_client c a T r = .error "Time has gone backwards" := by
  simp [startup_client, hshow, duration_since_epoch, hT]

/-- Witness for C7: a clock 5 nanoseconds before the epoch aborts startup. -/
theorem before_epoch_fatal_witness :
    ({ app_id := 1, show_time := true } : RPCConfig).show_time = true ∧
    (-5 : Int) < 0 ∧
    startup_client { app_id := 1, show_time := true } ActivityState.init (-5) false =
      .error "Time has gone backwards" :=
  ⟨rfl, by norm_num,
   before_epoch_fatal { app_id := 1, show_time := true } ActivityState.init (-5)
     false rfl (by norm_num)⟩

/-- C8: `startup_client` invokes `start()` exactly once, and its result is
never observed: the whole outcome is identical for any two `start()` results,
and every successful outcome records exactly one `start()` invocation. -/
theorem start_fire_and_forget (c : RPCConfig) (a : ActivityState) (T : Int)
    (r1 r2 : Bool) :
    startup_client c a T r1 = startup_client c a T r2 ∧
    (∀ o, startup_client c a T r1 = .ok o → o.startCalls = 1) :=
  ⟨rfl, fun o h => (startup_ok_shape c a T r1 o h).2⟩

/-- Witness for C8: a concrete startup is independent of the `start()` result
and records one `start()` call. -/
theorem start_fire_and_forget_witness :
    startup_client { app_id := 1, show_time := false } ActivityState.init 0 true =
      startup_client { app_id := 1, show_time := false } ActivityState.init 0 false ∧
    startupOutcomeInit.startCalls = 1 :=
  ⟨(start_fire_and_forget { app_id := 1, show_time := false }
      ActivityState.init 0 true false).1,
   (start_fire_and_forget { app_id := 1, show_time := false }
      ActivityState.init 0 true false).2 startupOutcomeInit rfl⟩

/-- C9: A push on a poisoned event-queue mutex propagates a crash-worthy
error — it is never swallowed into a success — while an unpoisoned push never
drops the event: it appends it at the tail. -/
theorem poisoned_lock_push (q : List Event) (ev : Event) :
    lockedPush true q ev = .error "poisoned event queue mutex" ∧
    lockedPush false q ev = .ok (q ++ [ev]) :=
  ⟨rfl, rfl⟩

/-- C10: On the first run of `check_activity_changed` after startup, one
`set_activity` call is issued even with no user mutation, because the
resource's insertion by `RPCPlugin::build` counts as a change for Bevy's
change detection. -/
theorem first_tick_issues_update (r : SetActivityResult) :
    (check_activity_changed initialSyncState r).2.calls =
      [initialSyncState.payload] := by
  simp [check_activity_changed, initialSyncState]

end BevyDiscordPresence
